import Mathlib

/-!
Shallow embedding of the core logic of the iphone-browser-emulator
repository: the navigation/history model (`useNavigation` in
`src/composables/useDeviceConfig.ts`), the URL utility functions
(`src/utils/url.ts`), and the viewport scale calculator (`calculateScale`
in `src/composables/useDeviceConfig.ts`).

JavaScript numbers are modelled as rationals (ℚ), strings as Lean
`String`, and array indices as `Int` (the history cursor can be -1).
The browser's built-in WHATWG `URL` constructor is external to the
repository; it is modelled as an abstract function `UrlParse` returning
the parsed protocol on success and `none` when the constructor throws.
-/

set_option autoImplicit false

namespace IphoneEmulator

/-- Model of the browser's `new URL(s)` constructor: `some protocol`
when parsing succeeds (e.g. `some "https:"`), `none` when it throws. -/
def UrlParse : Type := String → Option String

/-- The whitespace characters removed by JavaScript
`String.prototype.trim` (the ASCII ones plus no-break space; the more
exotic Unicode space separators do not occur in the claims). -/
def jsWhitespace (c : Char) : Bool :=
  c == ' ' || c == '\t' || c == '\n' || c == '\r' ||
    c == '\x0b' || c == '\x0c' || c == '\u00A0'

/-- Model of JavaScript `s.trim()`: remove leading and trailing
whitespace. Implemented by structural recursion on the character list so
that it evaluates by kernel reduction. -/
def jsTrim (s : String) : String :=
  ⟨((s.data.dropWhile jsWhitespace).reverse.dropWhile jsWhitespace).reverse⟩

/-- ASCII lower-casing of one character, as performed by a
case-insensitive (`/i`) regex on ASCII letters. -/
def asciiLower (c : Char) : Char :=
  if 65 ≤ c.toNat ∧ c.toNat ≤ 90 then Char.ofNat (c.toNat + 32) else c

/-- Does the first character list start with the second one? -/
def startsWithChars : List Char → List Char → Bool
  | _, [] => true
  | [], _ :: _ => false
  | c :: cs, d :: ds => c == d && startsWithChars cs ds

/-- Model of the regex test `/^https?:\/\//i.test(s)`: does `s` start
with `http://` or `https://`, case-insensitively. -/
def startsWithHttpScheme (s : String) : Bool :=
  startsWithChars (s.data.map asciiLower) "http://".data ||
    startsWithChars (s.data.map asciiLower) "https://".data

namespace UrlUtil

/-- Embeds `normaliseUrl` from `src/utils/url.ts`: trim; return `''` for
an all-whitespace string; return unchanged when an `http(s)://` scheme is
present; otherwise prepend `https://`. -/
def normaliseUrl (url : String) : String :=
  let trimmed := jsTrim url
  if trimmed = "" then ""
  else if startsWithHttpScheme trimmed then trimmed
  else "https://" ++ trimmed

/-- Embeds `isValidUrl` from `src/utils/url.ts`: normalise, reject the
empty string, parse with `new URL`, and accept exactly the `http:` and
`https:` protocols. -/
def isValidUrl (parse : UrlParse) (url : String) : Bool :=
  let normalised := normaliseUrl url
  if normalised = "" then false
  else
    match parse normalised with
    | some protocol => protocol == "http:" || protocol == "https:"
    | none => false

end UrlUtil

namespace Nav

/-- Embeds `NavigationErrorType` from `src/types/navigation.ts`. -/
inductive NavigationErrorType where
  | cors
  | invalidUrl
  | network
  | blocked
  | timeout
  | ssl
  | unknown
deriving DecidableEq

/-- Embeds `NavigationError` from `src/types/navigation.ts`; the
optional TypeScript fields `url?`, `timestamp?`, `recoverable?` become
`Option`s (`none` models an absent / `undefined` field). The
`originalError?` field carries a JS `Error` object and is not modelled. -/
structure NavigationError where
  type : NavigationErrorType
  message : String
  url : Option String
  timestamp : Option Int
  recoverable : Option Bool
deriving DecidableEq

/-- State of the `useNavigation` composable
(`src/composables/useDeviceConfig.ts`): the `history` ref with its
`entries` array of URL strings and `currentIndex` cursor, plus the
`currentUrl`, `isLoading`, `loadProgress` and `error` refs. -/
structure NavState where
  entries : List String
  currentIndex : Int
  currentUrl : String
  isLoading : Bool
  loadProgress : ℚ
  error : Option NavigationError
deriving DecidableEq

/-- Initial state of `useNavigation`: empty history, cursor -1, empty
current URL, not loading, progress 0, no error. -/
def initState : NavState :=
  { entries := []
    currentIndex := -1
    currentUrl := ""
    isLoading := false
    loadProgress := 0
    error := none }

/-- Computed `canGoBack`: `history.currentIndex > 0`. -/
def canGoBack (st : NavState) : Bool :=
  decide (0 < st.currentIndex)

/-- Computed `canGoForward`: `history.currentIndex < history.entries.length - 1`. -/
def canGoForward (st : NavState) : Bool :=
  decide (st.currentIndex < (st.entries.length : Int) - 1)

/-- Embeds `normaliseUrl` inside `useNavigation`: trim, then prepend
`https://` unless an `http(s)://` scheme is already present. Unlike the
`src/utils/url.ts` variant, there is no empty-string guard. -/
def normaliseUrl (url : String) : String :=
  let normalised := jsTrim url
  if startsWithHttpScheme normalised then normalised
  else "https://" ++ normalised

/-- Embeds `isValidUrl` inside `useNavigation`: parse the normalised URL
with `new URL` and accept exactly the `http:` and `https:` protocols. -/
def isValidUrl (parse : UrlParse) (url : String) : Bool :=
  match parse (normaliseUrl url) with
  | some protocol => protocol == "http:" || protocol == "https:"
  | none => false

/-- The error object `navigate` stores on invalid input:
`{ type: 'invalid-url', message: 'Please enter a valid URL ...' }`.
The optional fields `url`, `timestamp`, `recoverable` are left unset. -/
def invalidUrlError : NavigationError :=
  { type := .invalidUrl
    message := "Please enter a valid URL (e.g., https://example.com)"
    url := none
    timestamp := none
    recoverable := none }

/-- JavaScript `l.slice(0, e)`: a negative end index counts from the end
of the array (clamped at 0). -/
def jsSliceTo {α : Type} (l : List α) (e : Int) : List α :=
  if e < 0 then l.take ((l.length : Int) + e).toNat
  else l.take e.toNat

/-- Embeds `navigate` of `useNavigation`: normalise the URL; on invalid
input record an `invalid-url` error and mutate nothing else; on valid
input clear the error, enter the loading state, set the current URL to
the normalised URL, truncate the entries after the cursor, append the
new URL and move the cursor to the new last index. -/
def navigate (parse : UrlParse) (url : String) (st : NavState) : NavState :=
  let normalisedUrl := normaliseUrl url
  if isValidUrl parse url then
    let newEntries := jsSliceTo st.entries (st.currentIndex + 1) ++ [normalisedUrl]
    { st with
      error := none
      isLoading := true
      loadProgress := 0
      currentUrl := normalisedUrl
      entries := newEntries
      currentIndex := (newEntries.length : Int) - 1 }
  else
    { st with error := some invalidUrlError }

/-- Embeds `goBack` of `useNavigation`: no-op unless `canGoBack`;
otherwise decrement the cursor, set `currentUrl` to the entry at the new
cursor, clear the error and re-enter the loading state. Reading
`entries[i]` out of bounds yields `undefined` in JS; it is modelled by
the default `""` (never reached from an in-bounds cursor). -/
def goBack (st : NavState) : NavState :=
  if canGoBack st then
    let newIndex := st.currentIndex - 1
    { st with
      currentIndex := newIndex
      currentUrl := st.entries.getD newIndex.toNat ""
      error := none
      isLoading := true
      loadProgress := 0 }
  else st

/-- Embeds `goForward` of `useNavigation`: no-op unless `canGoForward`;
otherwise increment the cursor, set `currentUrl` to the entry at the new
cursor, clear the error and re-enter the loading state. -/
def goForward (st : NavState) : NavState :=
  if canGoForward st then
    let newIndex := st.currentIndex + 1
    { st with
      currentIndex := newIndex
      currentUrl := st.entries.getD newIndex.toNat ""
      error := none
      isLoading := true
      loadProgress := 0 }
  else st

/-- Embeds `refresh` of `useNavigation`: no-op when `currentUrl` is the
empty string (falsy); otherwise clear the error and re-enter the loading
state without touching history. -/
def refresh (st : NavState) : NavState :=
  if st.currentUrl = "" then st
  else { st with error := none, isLoading := true, loadProgress := 0 }

/-- Embeds `stop` of `useNavigation`: set `isLoading = false` and
`loadProgress = 100`. -/
def stop (st : NavState) : NavState :=
  { st with isLoading := false, loadProgress := 100 }

/-- Embeds `setProgress` of `useNavigation`:
`loadProgress = Math.max(0, Math.min(100, progress))`. -/
def setProgress (p : ℚ) (st : NavState) : NavState :=
  { st with loadProgress := max 0 (min 100 p) }

/-- Embeds `onLoadComplete` of `useNavigation`: set `isLoading = false`,
`loadProgress = 100`, `error = null`. -/
def onLoadComplete (st : NavState) : NavState :=
  { st with isLoading := false, loadProgress := 100, error := none }

/-- Embeds `onLoadError` of `useNavigation`: set `isLoading = false`,
`loadProgress = 0` and store the error. -/
def onLoadError (e : NavigationError) (st : NavState) : NavState :=
  { st with isLoading := false, loadProgress := 0, error := some e }

/-- Embeds `clear` of `useNavigation`: restore the initial state. -/
def clear (_st : NavState) : NavState :=
  initState

/-- The operations `useNavigation` exposes that mutate its state. -/
inductive NavOp where
  | navigate (url : String)
  | goBack
  | goForward
  | refresh
  | stop
  | setProgress (p : ℚ)
  | onLoadComplete
  | onLoadError (e : NavigationError)
  | clear

/-- Apply one operation to a navigation state. -/
def applyOp (parse : UrlParse) (st : NavState) : NavOp → NavState
  | .navigate url => navigate parse url st
  | .goBack => goBack st
  | .goForward => goForward st
  | .refresh => refresh st
  | .stop => stop st
  | .setProgress p => setProgress p st
  | .onLoadComplete => onLoadComplete st
  | .onLoadError e => onLoadError e st
  | .clear => clear st

/-- Run a sequence of operations from the initial state. -/
def runOps (parse : UrlParse) (ops : List NavOp) : NavState :=
  ops.foldl (applyOp parse) initState

/-- Well-formedness invariant of the navigation state: the cursor stays
in `[-1, entries.length)`, an empty cursor means an empty current URL,
and a non-negative cursor points at the entry that equals `currentUrl`. -/
def Inv (st : NavState) : Prop :=
  -1 ≤ st.currentIndex ∧
  st.currentIndex < (st.entries.length : Int) ∧
  (st.currentIndex = -1 → st.currentUrl = "") ∧
  (0 ≤ st.currentIndex → st.entries.get? st.currentIndex.toNat = some st.currentUrl)

end Nav

namespace Scale

/-- Embeds `ScaleResult` (`src/composables/useDeviceConfig.ts`). -/
structure ScaleResult where
  scale : ℚ
  scaledWidth : ℚ
  scaledHeight : ℚ
  fitsContainer : Bool
deriving DecidableEq

/-- Embeds `calculateScale` of `src/composables/useDeviceConfig.ts`:
compute the available space after padding, guard every degenerate
dimension, otherwise scale by `min(scaleX, scaleY, 1)`. -/
def calculateScale (containerW containerH deviceW deviceH paddingPx : ℚ) :
    ScaleResult :=
  let availableWidth := max 0 (containerW - paddingPx * 2)
  let availableHeight := max 0 (containerH - paddingPx * 2)
  if deviceW ≤ 0 ∨ deviceH ≤ 0 ∨ availableWidth ≤ 0 ∨ availableHeight ≤ 0 then
    { scale := 1
      scaledWidth := deviceW
      scaledHeight := deviceH
      fitsContainer := false }
  else
    let scaleX := availableWidth / deviceW
    let scaleY := availableHeight / deviceH
    let scale := min (min scaleX scaleY) 1
    { scale := scale
      scaledWidth := deviceW * scale
      scaledHeight := deviceH * scale
      fitsContainer := decide (1 ≤ scaleX) && decide (1 ≤ scaleY) }

end Scale

/-- A parse environment in which every string parses with an `https:`
protocol (used to instantiate theorems at concrete inputs). -/
def parseAccept : UrlParse := fun _ => some "https:"

/-- A parse environment in which `new URL` always throws. -/
def parseReject : UrlParse := fun _ => none

/-- A concrete navigation state with history `[A, B, C]` and the cursor
on `A` (index 0), as in the non-tail navigation example of the spec. -/
def exampleMidState : Nav.NavState :=
  { entries := ["https://a", "https://b", "https://c"]
    currentIndex := 0
    currentUrl := "https://a"
    isLoading := false
    loadProgress := 0
    error := none }

namespace Nav

theorem get?_append_singleton_length {α : Type} (l : List α) (a : α) :
    (l ++ [a]).get? l.length = some a := by
  simp [List.get?_eq_getElem?, List.getElem?_append_right]

theorem get?_eq_some_getD {α : Type} (l : List α) (n : Nat) (d : α)
    (h : n < l.length) : l.get? n = some (l.getD n d) := by
  rw [List.getD_eq_getElem l d h, List.get?_eq_getElem?, List.getElem?_eq_getElem h]

theorem inv_initState : Inv initState := by
  refine ⟨by decide, by decide, fun _ => rfl, fun h0 => absurd h0 (by decide)⟩

theorem inv_applyOp (parse : UrlParse) (st : NavState) (op : NavOp)
    (h : Inv st) : Inv (applyOp parse st op) := by
  obtain ⟨h1, h2, h3, h4⟩ := h
  cases op with
  | navigate url =>
      simp only [applyOp, navigate]
      by_cases hv : isValidUrl parse url = true
      · rw [if_pos hv]
        refine ⟨?_, ?_, ?_, ?_⟩
        · dsimp only
          simp only [List.length_append, List.length_cons, List.length_nil]
          omega
        · dsimp only
          simp only [List.length_append, List.length_cons, List.length_nil]
          omega
        · dsimp only
          simp only [List.length_append, List.length_cons, List.length_nil]
          intro hc
          exact absurd hc (by omega)
        · dsimp only
          intro _
          have hn : (((jsSliceTo st.entries (st.currentIndex + 1) ++ [normaliseUrl url]).length : Int) - 1).toNat
              = (jsSliceTo st.entries (st.currentIndex + 1)).length := by
            simp only [List.length_append, List.length_cons, List.length_nil]
            omega
          rw [hn]
          exact get?_append_singleton_length _ _
      · rw [if_neg hv]
        exact ⟨h1, h2, h3, h4⟩
  | goBack =>
      simp only [applyOp, goBack, canGoBack]
      by_cases hb : (0 : Int) < st.currentIndex
      · rw [if_pos (by simpa using hb)]
        refine ⟨?_, ?_, ?_, fun _ => ?_⟩
        · dsimp only; omega
        · dsimp only; omega
        · dsimp only; intro hc; exact absurd hc (by omega)
        · dsimp only
          exact get?_eq_some_getD _ _ _ (by omega)
      · rw [if_neg (by simpa using hb)]
        exact ⟨h1, h2, h3, h4⟩
  | goForward =>
      simp only [applyOp, goForward, canGoForward]
      by_cases hf : st.currentIndex < (st.entries.length : Int) - 1
      · rw [if_pos (by simpa using hf)]
        refine ⟨?_, ?_, ?_, fun _ => ?_⟩
        · dsimp only; omega
        · dsimp only; omega
        · dsimp only; intro hc; exact absurd hc (by omega)
        · dsimp only
          exact get?_eq_some_getD _ _ _ (by omega)
      · rw [if_neg (by simpa using hf)]
        exact ⟨h1, h2, h3, h4⟩
  | refresh =>
      simp only [applyOp, refresh]
      split
      · exact ⟨h1, h2, h3, h4⟩
      · exact ⟨h1, h2, h3, h4⟩
  | stop => exact ⟨h1, h2, h3, h4⟩
  | setProgress p => exact ⟨h1, h2, h3, h4⟩
  | onLoadComplete => exact ⟨h1, h2, h3, h4⟩
  | onLoadError e => exact ⟨h1, h2, h3, h4⟩
  | clear => exact inv_initState

theorem inv_foldl (parse : UrlParse) (ops : List NavOp) (st : NavState)
    (h : Inv st) : Inv (ops.foldl (applyOp parse) st) := by
  induction ops generalizing st with
  | nil => exact h
  | cons op rest ih => exact ih _ (inv_applyOp parse st op h)

theorem inv_runOps (parse : UrlParse) (ops : List NavOp) :
    Inv (runOps parse ops) :=
  inv_foldl parse ops initState inv_initState

theorem goBack_goForward_restores (st : NavState) (hInv : Inv st)
    (h : canGoBack st = true) :
    (goForward (goBack st)).currentUrl = st.currentUrl ∧
    (goForward (goBack st)).currentIndex = st.currentIndex := by
  obtain ⟨h1, h2, h3, h4⟩ := hInv
  have hb : 0 < st.currentIndex := by simpa [canGoBack] using h
  have hgb : goBack st = { st with
      currentIndex := st.currentIndex - 1
      currentUrl := st.entries.getD (st.currentIndex - 1).toNat ""
      error := none
      isLoading := true
      loadProgress := 0 } := by
    simp only [goBack]
    rw [if_pos h]
  have hcf : canGoForward (goBack st) = true := by
    rw [hgb]
    simp only [canGoForward]
    dsimp only
    simp only [decide_eq_true_eq]
    omega
  have hgf : goForward (goBack st) = { goBack st with
      currentIndex := (goBack st).currentIndex + 1
      currentUrl := (goBack st).entries.getD ((goBack st).currentIndex + 1).toNat ""
      error := none
      isLoading := true
      loadProgress := 0 } := by
    simp only [goForward]
    rw [if_pos hcf]
  rw [hgf, hgb]
  dsimp only
  constructor
  · have hIdx : st.currentIndex - 1 + 1 = st.currentIndex := by omega
    rw [hIdx]
    have h5 := h4 (by omega)
    rw [List.getD_eq_getD_get?, h5, Option.getD_some]
  · omega

end Nav

/-- Claim C1: after every sequence of navigation operations from the
initial empty state, the history cursor satisfies
`-1 <= historyIndex < entries.length`, and the computed `canGoBack` and
`canGoForward` flags equal `historyIndex > 0` and
`historyIndex < entries.length - 1`. -/
theorem claim_C1_theorem (parse : UrlParse) (ops : List Nav.NavOp) :
    -1 ≤ (Nav.runOps parse ops).currentIndex ∧
    (Nav.runOps parse ops).currentIndex
      < ((Nav.runOps parse ops).entries.length : Int) ∧
    Nav.canGoBack (Nav.runOps parse ops)
      = decide (0 < (Nav.runOps parse ops).currentIndex) ∧
    Nav.canGoForward (Nav.runOps parse ops)
      = decide ((Nav.runOps parse ops).currentIndex
          < ((Nav.runOps parse ops).entries.length : Int) - 1) := by
  obtain ⟨h1, h2, -, -⟩ := Nav.inv_runOps parse ops
  exact ⟨h1, h2, rfl, rfl⟩

/-- Claim C2 counterexample: on invalid input `navigate` stores the
`invalid-url` error, but its optional `recoverable` field is left unset
(`none`), not set to `false` as the claim states. -/
theorem claim_C2_counterexample :
    (Nav.navigate parseReject "foo" Nav.initState).error
      = some Nav.invalidUrlError ∧
    Nav.invalidUrlError.recoverable ≠ some false := by
  exact ⟨by decide, by decide⟩

/-- Claim C2 (amended): navigating with a string that fails URL
validation leaves `entries`, `historyIndex` and `currentUrl` unchanged
and sets `error` to the `invalid-url` error, whose `type` is
`invalid-url` and whose `recoverable` field is left unset (undefined)
rather than set to `false`. -/
theorem claim_C2_theorem (parse : UrlParse) (st : Nav.NavState)
    (url : String) (h : Nav.isValidUrl parse url = false) :
    (Nav.navigate parse url st).entries = st.entries ∧
    (Nav.navigate parse url st).currentIndex = st.currentIndex ∧
    (Nav.navigate parse url st).currentUrl = st.currentUrl ∧
    (Nav.navigate parse url st).error = some Nav.invalidUrlError ∧
    Nav.invalidUrlError.type = Nav.NavigationErrorType.invalidUrl ∧
    Nav.invalidUrlError.recoverable = none := by
  have hne : ¬(Nav.isValidUrl parse url = true) := by simp [h]
  simp only [Nav.navigate]
  rw [if_neg hne]
  exact ⟨rfl, rfl, rfl, rfl, rfl, rfl⟩

/-- Witness for claim C2 at the concrete invalid input `"foo"` under a
parse environment in which `new URL` always throws. -/
theorem claim_C2_witness :
    Nav.isValidUrl parseReject "foo" = false ∧
    ((Nav.navigate parseReject "foo" Nav.initState).entries
        = Nav.initState.entries ∧
      (Nav.navigate parseReject "foo" Nav.initState).currentIndex
        = Nav.initState.currentIndex ∧
      (Nav.navigate parseReject "foo" Nav.initState).currentUrl
        = Nav.initState.currentUrl ∧
      (Nav.navigate parseReject "foo" Nav.initState).error
        = some Nav.invalidUrlError ∧
      Nav.invalidUrlError.type = Nav.NavigationErrorType.invalidUrl ∧
      Nav.invalidUrlError.recoverable = none) :=
  ⟨by decide, claim_C2_theorem parseReject Nav.initState "foo" (by decide)⟩

/-- Claim C3: navigating with a valid URL truncates the entries to
positions `0..historyIndex`, appends the (normalised) new URL, and sets
the cursor to the new last index. -/
theorem claim_C3_theorem (parse : UrlParse) (st : Nav.NavState)
    (url : String)
    (hv : Nav.isValidUrl parse url = true)
    (hlo : -1 ≤ st.currentIndex)
    (hnt : st.currentIndex < (st.entries.length : Int) - 1) :
    (Nav.navigate parse url st).entries
      = st.entries.take (st.currentIndex + 1).toNat ++ [Nav.normaliseUrl url] ∧
    (Nav.navigate parse url st).currentIndex
      = ((Nav.navigate parse url st).entries.length : Int) - 1 := by
  simp only [Nav.navigate]
  rw [if_pos hv]
  constructor
  · dsimp only
    unfold Nav.jsSliceTo
    rw [if_neg (by omega)]
  · rfl

/-- Witness for claim C3: from history `[A, B, C]` with the cursor on
`A` (index 0), navigating to `D` truncates to `[A]`, appends `D` and
moves the cursor to index 1. -/
theorem claim_C3_witness :
    Nav.isValidUrl parseAccept "https://d" = true ∧
    (-1 : Int) ≤ exampleMidState.currentIndex ∧
    exampleMidState.currentIndex < (exampleMidState.entries.length : Int) - 1 ∧
    ((Nav.navigate parseAccept "https://d" exampleMidState).entries
        = exampleMidState.entries.take (exampleMidState.currentIndex + 1).toNat
            ++ [Nav.normaliseUrl "https://d"] ∧
      (Nav.navigate parseAccept "https://d" exampleMidState).currentIndex
        = ((Nav.navigate parseAccept "https://d" exampleMidState).entries.length : Int) - 1) :=
  ⟨by decide, by decide, by decide,
    claim_C3_theorem parseAccept exampleMidState "https://d"
      (by decide) (by decide) (by decide)⟩

/-- Claim C4 counterexample: in the reachable state produced by
`navigate a; navigate b; goBack` the cursor is 0 with forward history,
so `goBack` is a no-op but `goForward` still advances: `goBack` then
`goForward` does not restore the pre-`goBack` `currentUrl`. -/
theorem claim_C4_counterexample :
    (Nav.goForward (Nav.goBack (Nav.runOps parseAccept
        [Nav.NavOp.navigate "a", Nav.NavOp.navigate "b", Nav.NavOp.goBack]))).currentUrl
      ≠ (Nav.runOps parseAccept
        [Nav.NavOp.navigate "a", Nav.NavOp.navigate "b", Nav.NavOp.goBack]).currentUrl := by
  decide

/-- Claim C4 (amended): from any reachable state in which `canGoBack`
holds, `goBack` followed by `goForward` restores `currentUrl` and
`historyIndex` to their pre-`goBack` values. -/
theorem claim_C4_theorem (parse : UrlParse) (ops : List Nav.NavOp)
    (h : Nav.canGoBack (Nav.runOps parse ops) = true) :
    (Nav.goForward (Nav.goBack (Nav.runOps parse ops))).currentUrl
        = (Nav.runOps parse ops).currentUrl ∧
    (Nav.goForward (Nav.goBack (Nav.runOps parse ops))).currentIndex
        = (Nav.runOps parse ops).currentIndex :=
  Nav.goBack_goForward_restores (Nav.runOps parse ops)
    (Nav.inv_runOps parse ops) h

/-- Witness for claim C4 after `navigate a; navigate b`. -/
theorem claim_C4_witness :
    Nav.canGoBack (Nav.runOps parseAccept
        [Nav.NavOp.navigate "a", Nav.NavOp.navigate "b"]) = true ∧
    ((Nav.goForward (Nav.goBack (Nav.runOps parseAccept
          [Nav.NavOp.navigate "a", Nav.NavOp.navigate "b"]))).currentUrl
        = (Nav.runOps parseAccept
          [Nav.NavOp.navigate "a", Nav.NavOp.navigate "b"]).currentUrl ∧
      (Nav.goForward (Nav.goBack (Nav.runOps parseAccept
          [Nav.NavOp.navigate "a", Nav.NavOp.navigate "b"]))).currentIndex
        = (Nav.runOps parseAccept
          [Nav.NavOp.navigate "a", Nav.NavOp.navigate "b"]).currentIndex) :=
  ⟨by decide, claim_C4_theorem parseAccept
    [Nav.NavOp.navigate "a", Nav.NavOp.navigate "b"] (by decide)⟩

/-- Claim C5: whenever the device width/height or the available
width/height (container dimension minus twice the padding) is zero or
negative, `calculateScale` returns
`{scale: 1, scaledWidth: deviceW, scaledHeight: deviceH, fitsContainer: false}`
(and in particular never reaches the division). -/
theorem claim_C5_theorem (containerW containerH deviceW deviceH paddingPx : ℚ)
    (h : deviceW ≤ 0 ∨ deviceH ≤ 0 ∨ containerW - paddingPx * 2 ≤ 0 ∨
      containerH - paddingPx * 2 ≤ 0) :
    Scale.calculateScale containerW containerH deviceW deviceH paddingPx
      = { scale := 1, scaledWidth := deviceW, scaledHeight := deviceH,
          fitsContainer := false } := by
  have hc : deviceW ≤ 0 ∨ deviceH ≤ 0 ∨
      max 0 (containerW - paddingPx * 2) ≤ 0 ∨
      max 0 (containerH - paddingPx * 2) ≤ 0 := by
    rcases h with h | h | h | h
    · exact Or.inl h
    · exact Or.inr (Or.inl h)
    · exact Or.inr (Or.inr (Or.inl (max_le le_rfl h)))
    · exact Or.inr (Or.inr (Or.inr (max_le le_rfl h)))
  simp only [Scale.calculateScale]
  rw [if_pos hc]

/-- Witness for claim C5 at a zero device width. -/
theorem claim_C5_witness :
    ((0 : ℚ) ≤ 0 ∨ (844 : ℚ) ≤ 0 ∨ (500 : ℚ) - 20 * 2 ≤ 0 ∨
      (500 : ℚ) - 20 * 2 ≤ 0) ∧
    Scale.calculateScale 500 500 0 844 20
      = { scale := 1, scaledWidth := 0, scaledHeight := 844,
          fitsContainer := false } :=
  ⟨Or.inl le_rfl, claim_C5_theorem 500 500 0 844 20 (Or.inl le_rfl)⟩

/-- Claim C6: in every navigation state, `onLoadComplete` sets
`isLoading = false`, `loadProgress = 100` and `error = null` — in
particular it clears any previously recorded error. -/
theorem claim_C6_theorem (st : Nav.NavState) :
    (Nav.onLoadComplete st).isLoading = false ∧
    (Nav.onLoadComplete st).loadProgress = 100 ∧
    (Nav.onLoadComplete st).error = none :=
  ⟨rfl, rfl, rfl⟩

/-- Claim C7 counterexample: the whitespace-only string `" "` is
non-empty and its trimmed form does not start with `http(s)://`, yet
`normaliseUrl` in `src/utils/url.ts` returns `""`, not
`"https://" + trim(" ")`. -/
theorem claim_C7_counterexample :
    (" " : String) ≠ "" ∧
    startsWithHttpScheme (jsTrim " ") = false ∧
    UrlUtil.normaliseUrl " " ≠ "https://" ++ jsTrim " " := by
  exact ⟨by decide, by decide, by decide⟩

/-- Claim C7 (amended): for every string whose trimmed form is non-empty
and does not start with `http://` or `https://` (case-insensitive), both
URL normalization functions (`src/utils/url.ts` and the one inside
`useNavigation`) return `"https://" + trim(s)`. -/
theorem claim_C7_theorem (s : String)
    (hne : jsTrim s ≠ "")
    (hpre : startsWithHttpScheme (jsTrim s) = false) :
    UrlUtil.normaliseUrl s = "https://" ++ jsTrim s ∧
    Nav.normaliseUrl s = "https://" ++ jsTrim s := by
  have hp : ¬(startsWithHttpScheme (jsTrim s) = true) := by simp [hpre]
  constructor
  · simp only [UrlUtil.normaliseUrl]
    rw [if_neg hne, if_neg hp]
  · simp only [Nav.normaliseUrl]
    rw [if_neg hp]

/-- Witness for claim C7 at the concrete input `"example.com"`. -/
theorem claim_C7_witness :
    jsTrim "example.com" ≠ "" ∧
    startsWithHttpScheme (jsTrim "example.com") = false ∧
    (UrlUtil.normaliseUrl "example.com" = "https://" ++ jsTrim "example.com" ∧
      Nav.normaliseUrl "example.com" = "https://" ++ jsTrim "example.com") :=
  ⟨by decide, by decide, claim_C7_theorem "example.com" (by decide) (by decide)⟩

/-- Claim C8: in every navigation state, regardless of the prior
`isLoading` and `loadProgress` values, `stop` sets `isLoading = false`
and `loadProgress = 100`. -/
theorem claim_C8_theorem (st : Nav.NavState) :
    (Nav.stop st).isLoading = false ∧ (Nav.stop st).loadProgress = 100 :=
  ⟨rfl, rfl⟩

/-- Claim C9: with positive device dimensions and positive available
space, `calculateScale` returns `0 < scale ≤ 1` with
`scaledWidth = deviceW * scale` and `scaledHeight = deviceH * scale`
both fitting in the available space. -/
theorem claim_C9_theorem (containerW containerH deviceW deviceH paddingPx : ℚ)
    (hw : 0 < deviceW) (hh : 0 < deviceH)
    (haw : 0 < containerW - paddingPx * 2)
    (hah : 0 < containerH - paddingPx * 2) :
    0 < (Scale.calculateScale containerW containerH deviceW deviceH paddingPx).scale ∧
    (Scale.calculateScale containerW containerH deviceW deviceH paddingPx).scale ≤ 1 ∧
    (Scale.calculateScale containerW containerH deviceW deviceH paddingPx).scaledWidth
      = deviceW * (Scale.calculateScale containerW containerH deviceW deviceH paddingPx).scale ∧
    (Scale.calculateScale containerW containerH deviceW deviceH paddingPx).scaledHeight
      = deviceH * (Scale.calculateScale containerW containerH deviceW deviceH paddingPx).scale ∧
    (Scale.calculateScale containerW containerH deviceW deviceH paddingPx).scaledWidth
      ≤ containerW - paddingPx * 2 ∧
    (Scale.calculateScale containerW containerH deviceW deviceH paddingPx).scaledHeight
      ≤ containerH - paddingPx * 2 := by
  have hmw : max 0 (containerW - paddingPx * 2) = containerW - paddingPx * 2 :=
    max_eq_right haw.le
  have hmh : max 0 (containerH - paddingPx * 2) = containerH - paddingPx * 2 :=
    max_eq_right hah.le
  have hcond : ¬(deviceW ≤ 0 ∨ deviceH ≤ 0 ∨
      max 0 (containerW - paddingPx * 2) ≤ 0 ∨
      max 0 (containerH - paddingPx * 2) ≤ 0) := by
    rw [hmw, hmh]
    push_neg
    exact ⟨hw, hh, haw, hah⟩
  simp only [Scale.calculateScale]
  rw [if_neg hcond, hmw, hmh]
  dsimp only
  have hx : 0 < (containerW - paddingPx * 2) / deviceW := div_pos haw hw
  have hy : 0 < (containerH - paddingPx * 2) / deviceH := div_pos hah hh
  refine ⟨lt_min (lt_min hx hy) one_pos, min_le_right _ _, rfl, rfl, ?_, ?_⟩
  · calc deviceW * min (min ((containerW - paddingPx * 2) / deviceW)
          ((containerH - paddingPx * 2) / deviceH)) 1
        ≤ deviceW * ((containerW - paddingPx * 2) / deviceW) :=
          mul_le_mul_of_nonneg_left
            ((min_le_left _ _).trans (min_le_left _ _)) hw.le
      _ = containerW - paddingPx * 2 := by
          rw [mul_comm]
          exact div_mul_cancel₀ _ (ne_of_gt hw)
  · calc deviceH * min (min ((containerW - paddingPx * 2) / deviceW)
          ((containerH - paddingPx * 2) / deviceH)) 1
        ≤ deviceH * ((containerH - paddingPx * 2) / deviceH) :=
          mul_le_mul_of_nonneg_left
            ((min_le_left _ _).trans (min_le_right _ _)) hh.le
      _ = containerH - paddingPx * 2 := by
          rw [mul_comm]
          exact div_mul_cancel₀ _ (ne_of_gt hh)

/-- Witness for claim C9 at the spec's worked example
`calculateScale(500, 500, 390, 844, 20)`. -/
theorem claim_C9_witness :
    (0 : ℚ) < 390 ∧ (0 : ℚ) < 844 ∧
    (0 : ℚ) < 500 - 20 * 2 ∧ (0 : ℚ) < 500 - 20 * 2 ∧
    (0 < (Scale.calculateScale 500 500 390 844 20).scale ∧
      (Scale.calculateScale 500 500 390 844 20).scale ≤ 1 ∧
      (Scale.calculateScale 500 500 390 844 20).scaledWidth
        = 390 * (Scale.calculateScale 500 500 390 844 20).scale ∧
      (Scale.calculateScale 500 500 390 844 20).scaledHeight
        = 844 * (Scale.calculateScale 500 500 390 844 20).scale ∧
      (Scale.calculateScale 500 500 390 844 20).scaledWidth ≤ 500 - 20 * 2 ∧
      (Scale.calculateScale 500 500 390 844 20).scaledHeight ≤ 500 - 20 * 2) :=
  ⟨by norm_num, by norm_num, by norm_num, by norm_num,
    claim_C9_theorem 500 500 390 844 20
      (by norm_num) (by norm_num) (by norm_num) (by norm_num)⟩

/-- Claim C10: after every sequence of operations from the initial
state, a non-negative cursor points at the history entry that equals
`currentUrl`, and a cursor of -1 means `currentUrl` is empty. -/
theorem claim_C10_theorem (parse : UrlParse) (ops : List Nav.NavOp) :
    (0 ≤ (Nav.runOps parse ops).currentIndex →
      (Nav.runOps parse ops).entries.get?
          (Nav.runOps parse ops).currentIndex.toNat
        = some (Nav.runOps parse ops).currentUrl) ∧
    ((Nav.runOps parse ops).currentIndex = -1 →
      (Nav.runOps parse ops).currentUrl = "") := by
  obtain ⟨-, -, h3, h4⟩ := Nav.inv_runOps parse ops
  exact ⟨h4, h3⟩

/-- Witness for claim C10 after a single navigation. -/
theorem claim_C10_witness :
    (Nav.runOps parseAccept [Nav.NavOp.navigate "a"]).entries.get?
        (Nav.runOps parseAccept [Nav.NavOp.navigate "a"]).currentIndex.toNat
      = some (Nav.runOps parseAccept [Nav.NavOp.navigate "a"]).currentUrl :=
  (claim_C10_theorem parseAccept [Nav.NavOp.navigate "a"]).1 (by decide)

end IphoneEmulator
